import Mathlib

/-!
Verification of the refresh-and-render pipeline of the weather dashboard
(`weather.py`), against its natural-language specification.

The embedding models `update_data` and its helpers: the calendar/date values
produced by `datetime.strptime` on the forecast's `dt_txt` field, the daily
forecast reduction (lines 104-124 of the source: one summary per calendar
date at the 12:00 sample, at most 5), the hourly reduction
(lines 126-134: first 4 raw samples), and the whole refresh cycle with its
`try/except` failure containment and `root.after` rescheduling.  Network
fetches are modelled by an environment of `Except`-valued results; the
Tk widgets mutated by the cycle are modelled by a `Display` record holding
the data each widget renders.
-/

/-- Calendar date, as produced by `datetime.strptime(dt_txt, "%Y-%m-%d %H:%M:%S").date()`. -/
structure DateT where
  year : Nat
  month : Nat
  day : Nat
deriving DecidableEq

/-- A raw forecast sample (one entry of `forecast_data["list"]`): the parsed
`dt_txt` timestamp (date, hour, minute), `main.temp`, `main.temp_min`,
`main.temp_max`, and the icon code `weather[0].icon`. -/
structure FPoint where
  date : DateT
  hour : Nat
  minute : Nat
  temp : Int
  temp_min : Int
  temp_max : Int
  icon : String
deriving DecidableEq

/-- Strict order on calendar dates (lexicographic on year, month, day). -/
def dateLt (a b : DateT) : Prop :=
  a.year < b.year ∨ (a.year = b.year ∧ (a.month < b.month ∨ (a.month = b.month ∧ a.day < b.day)))

instance (a b : DateT) : Decidable (dateLt a b) := by
  unfold dateLt; infer_instance

/-- Non-strict order on calendar dates. -/
def dateLe (a b : DateT) : Prop := dateLt a b ∨ a = b

instance (a b : DateT) : Decidable (dateLe a b) := by
  unfold dateLe; infer_instance

/-- Chronological order on forecast samples: date, then hour, then minute. -/
def chronLe (a b : FPoint) : Prop :=
  dateLt a.date b.date ∨
    (a.date = b.date ∧ (a.hour < b.hour ∨ (a.hour = b.hour ∧ a.minute ≤ b.minute)))

instance (a b : FPoint) : Decidable (chronLe a b) := by
  unfold chronLe; infer_instance

theorem chronLe_dateLe {a b : FPoint} (h : chronLe a b) : dateLe a.date b.date := by
  rcases h with h1 | ⟨h1, _⟩
  · exact Or.inl h1
  · exact Or.inr h1

/-- Zeller's congruence on the Gregorian calendar: 0 = Saturday, 1 = Sunday,
2 = Monday, ... (models the weekday underlying `strftime("%a")`). -/
def zellerIdx (d : DateT) : Nat :=
  let y := if d.month ≤ 2 then d.year - 1 else d.year
  let m := if d.month ≤ 2 then d.month + 12 else d.month
  let K := y % 100
  let J := y / 100
  (d.day + (13 * (m + 1)) / 5 + K + K / 4 + J / 4 + 5 * J) % 7

/-- Abbreviated weekday label, as `date_obj.strftime("%a")` renders it. -/
def weekdayLabel (d : DateT) : String :=
  match zellerIdx d with
  | 0 => "Sat"
  | 1 => "Sun"
  | 2 => "Mon"
  | 3 => "Tue"
  | 4 => "Wed"
  | 5 => "Thu"
  | _ => "Fri"

/-- Zero-padded two-digit rendering of a field, as `strftime` pads `%H`/`%M`. -/
def pad2 (n : Nat) : String :=
  if n < 10 then "0" ++ toString n else toString n

/-- The `strftime("%H:%M")` label of one sample, used for the hourly chart. -/
def timeLabel (p : FPoint) : String :=
  pad2 p.hour ++ ":" ++ pad2 p.minute

/-- Data content of one daily forecast card: the emitting sample's date, the
`%a` day label, the icon code whose image is shown, and `temp_min`/`temp_max`
(lines 114-117 of the source). -/
structure DSum where
  date : DateT
  dayLabel : String
  iconCode : String
  temp_min : Int
  temp_max : Int
deriving DecidableEq

/-- The summary built from the forecast sample that triggers a daily card. -/
def mkSum (p : FPoint) : DSum :=
  ⟨p.date, weekdayLabel p.date, p.icon, p.temp_min, p.temp_max⟩

/-- The daily reduction of `update_data` (source lines 106-124), with the icon
fetch abstracted away: walk the samples in order; on a sample whose hour is 12
and whose date is not in `days_added` (`seen`), record the date and emit a
summary; `col` counts emitted cards and the loop breaks once it reaches 5. -/
def dailySummaries : List FPoint → List DateT → Nat → List DSum
  | [], _, _ => []
  | p :: rest, seen, col =>
    if p.hour = 12 ∧ ¬ p.date ∈ seen then
      if col + 1 = 5 then [mkSum p]
      else mkSum p :: dailySummaries rest (p.date :: seen) (col + 1)
    else dailySummaries rest seen col

/-- The hourly reduction of `update_data` (source lines 126-134):
`forecast_data["list"][:4]`, each sample contributing its `%H:%M` label and
temperature. -/
def hourlyPoints (points : List FPoint) : List (String × Int) :=
  (points.take 4).map (fun p => (timeLabel p, p.temp))

/-- The pure forecast reduction: raw samples to (daily summaries, hourly
chart points), exactly as `update_data` computes both. -/
def forecastReduce (points : List FPoint) : List DSum × List (String × Int) :=
  (dailySummaries points [] 0, hourlyPoints points)

/-- First occurrence per calendar date, keeping input order (`seen` holds the
dates already taken). -/
def dedupFirst : List DateT → List FPoint → List FPoint
  | _, [] => []
  | seen, p :: rest =>
    if p.date ∈ seen then dedupFirst seen rest
    else p :: dedupFirst (p.date :: seen) rest

/-- Declarative form of the spec's daily reduction policy: keep the midday
(12:00) samples, keep the first sample per calendar date, stop after 5, and
summarise each kept sample. -/
def specDaily (points : List FPoint) : List DSum :=
  ((dedupFirst [] (points.filter (fun p => p.hour == 12))).take 5).map mkSum

/-- The fields of the current-weather payload that `update_data` reads
(source lines 74-81). -/
structure CurrentWx where
  temp : Int
  feels_like : Int
  description : String
  icon : String
  wind : Int
  humidity : Nat
  sunrise : Nat
  sunset : Nat
deriving DecidableEq

/-- Raw image bytes returned by the icon endpoint. -/
abbrev Img := String

/-- Python's `str.strip()`: drop whitespace from both ends. -/
def pyStrip (s : String) : String :=
  ⟨((s.data.dropWhile Char.isWhitespace).reverse.dropWhile Char.isWhitespace).reverse⟩

/-- One outgoing network request of a cycle, in issue order: the
current-weather request, the forecast request, the quote request, and one
icon-image request per fetched icon code. -/
inductive Request where
  | currentWx : String → String → Request
  | forecastReq : String → String → Request
  | quoteReq : Request
  | iconReq : String → Request
deriving DecidableEq

/-- One cycle's view of the remote endpoints: each fetch either yields a
parsed payload or raises (modelled by `Except.error` carrying the message the
`except` handler would display). -/
structure FetchEnv where
  current : Except String CurrentWx
  forecast : Except String (List FPoint)
  quote : Except String String
  icon : String → Except String Img

/-- Data content of one rendered forecast card (the three labels gridded at
source lines 114-120): day label, fetched icon image, `temp_min`/`temp_max`. -/
structure DailyCard where
  dayLabel : String
  img : Img
  temp_min : Int
  temp_max : Int
deriving DecidableEq

/-- The widget state `update_data` mutates, modelled by the data each widget
renders: `weather_label` (city, description, temp, feels-like),
`details_label` (wind, humidity, sunrise, sunset), the current icon image,
the quote textbox, the forecast-frame cards, the hourly chart, and the two
message boxes (`showwarning` / `showerror`). -/
structure Display where
  weatherShown : Option (String × String × Int × Int)
  detailsShown : Option (Int × Nat × Nat × Nat)
  currentIcon : Option Img
  quoteShown : Option String
  forecastCards : List DailyCard
  chart : Option (List (String × Int))
  warnShown : Option String
  errorShown : Option String
deriving DecidableEq

/-- Result of the daily forecast loop: the cards now in the forecast frame,
the icon requests it issued, and the exception it raised (if any). -/
structure DailyOut where
  cards : List DailyCard
  calls : List Request
  err : Option String
deriving DecidableEq

/-- The card built for a sample `p` with fetched icon image `img`. -/
def mkCard (p : FPoint) (img : Img) : DailyCard :=
  ⟨weekdayLabel p.date, img, p.temp_min, p.temp_max⟩

/-- The daily forecast loop as executed (source lines 106-124), icon fetch
included: a sample at hour 12 with a fresh date first records the date, then
fetches its icon; a failed fetch raises out of the loop, leaving the cards
added so far in the frame. -/
def dailyRender (iconFetch : String → Except String Img) :
    List FPoint → List DateT → Nat → List DailyCard → List Request → DailyOut
  | [], _, _, cards, calls => ⟨cards, calls, none⟩
  | p :: rest, seen, col, cards, calls =>
    if p.hour = 12 ∧ ¬ p.date ∈ seen then
      match iconFetch p.icon with
      | .error e => ⟨cards, calls ++ [Request.iconReq p.icon], some e⟩
      | .ok img =>
        if col + 1 = 5 then ⟨cards ++ [mkCard p img], calls ++ [Request.iconReq p.icon], none⟩
        else
          dailyRender iconFetch rest (p.date :: seen) (col + 1)
            (cards ++ [mkCard p img]) (calls ++ [Request.iconReq p.icon])
    else dailyRender iconFetch rest seen col cards calls

/-- Outcome of one `update_data` invocation: the widget state afterwards, the
network requests issued in order, and whether `root.after` re-armed the
60-second timer (`rearmed = false` exactly on the early `return`). -/
structure CycleOut where
  disp : Display
  calls : List Request
  rearmed : Bool
deriving DecidableEq

/-- One refresh cycle, `update_data` (source lines 61-140), translated
step by step: trim the city and bail out (without rescheduling) when empty;
otherwise fetch current weather, forecast, the current icon, and the quote in
order, updating widgets as the source does between fetches; then clear the
forecast frame and run the daily loop; then draw the hourly chart.  The
first raised exception jumps to the `except` handler, which shows the error
dialog; the `root.after` rescheduling after the `try` statement always runs
on this path. -/
def update_data (cityRaw unitChoice : String) (env : FetchEnv) (st : Display) : CycleOut :=
  let city := pyStrip cityRaw
  if city = "" then
    ⟨{ st with warnShown := some "Please enter a city name." }, [], false⟩
  else
    let units := if unitChoice = "Celsius" then "metric" else "imperial"
    let calls := [Request.currentWx city units]
    match env.current with
    | .error e => ⟨{ st with errorShown := some e }, calls, true⟩
    | .ok wx =>
      let calls := calls ++ [Request.forecastReq city units]
      match env.forecast with
      | .error e => ⟨{ st with errorShown := some e }, calls, true⟩
      | .ok points =>
        let st := { st with
          weatherShown := some (city, wx.description, wx.temp, wx.feels_like),
          detailsShown := some (wx.wind, wx.humidity, wx.sunrise, wx.sunset) }
        let calls := calls ++ [Request.iconReq wx.icon]
        match env.icon wx.icon with
        | .error e => ⟨{ st with errorShown := some e }, calls, true⟩
        | .ok img =>
          let st := { st with currentIcon := some img }
          let calls := calls ++ [Request.quoteReq]
          match env.quote with
          | .error e => ⟨{ st with errorShown := some e }, calls, true⟩
          | .ok q =>
            let st := { st with quoteShown := some q, forecastCards := [] }
            let dOut := dailyRender env.icon points [] 0 [] []
            let st := { st with forecastCards := dOut.cards }
            let calls := calls ++ dOut.calls
            match dOut.err with
            | some e => ⟨{ st with errorShown := some e }, calls, true⟩
            | none => ⟨{ st with chart := some (hourlyPoints points) }, calls, true⟩

/-- Monday 2024-01-01. -/
def exDate1 : DateT := ⟨2024, 1, 1⟩

/-- Tuesday 2024-01-02. -/
def exDate2 : DateT := ⟨2024, 1, 2⟩

/-- The spec's example feed: (Mon 00:00, 10°), (Mon 03:00, 12°),
(Mon 12:00, 18°, min 14, max 20), (Tue 00:00, 9°),
(Tue 12:00, 16°, min 11, max 19). -/
def examplePoints : List FPoint :=
  [⟨exDate1, 0, 0, 10, 10, 10, "i0"⟩,
   ⟨exDate1, 3, 0, 12, 12, 12, "i1"⟩,
   ⟨exDate1, 12, 0, 18, 14, 20, "i2"⟩,
   ⟨exDate2, 0, 0, 9, 9, 9, "i3"⟩,
   ⟨exDate2, 12, 0, 16, 11, 19, "i4"⟩]

/-- A current-weather payload used for concrete cycles. -/
def wx0 : CurrentWx := ⟨21, 20, "clear sky", "01d", 3, 40, 21600, 64800⟩

/-- A card left over from a previous cycle. -/
def oldCard : DailyCard := ⟨"Sun", "old-img", 1, 2⟩

/-- Widget state as a previous successful cycle left it. -/
def st0 : Display :=
  ⟨some ("Poipet", "haze", 30, 33), some (2, 70, 21500, 64700), some "old-icon",
   some "old quote", [oldCard], some [("09:00", 7)], none, none⟩

/-- Endpoints where only the quote fetch raises. -/
def envQuoteFail : FetchEnv :=
  ⟨.ok wx0, .ok examplePoints, .error "quote down", fun _ => .ok "img"⟩

/-- Endpoints where every icon fetch raises. -/
def envIconFail : FetchEnv :=
  ⟨.ok wx0, .ok examplePoints, .ok "new quote", fun _ => .error "icon down"⟩

/-- Endpoints where the current-conditions icon resolves but every daily icon
fetch raises. -/
def envDailyIconFail : FetchEnv :=
  ⟨.ok wx0, .ok examplePoints, .ok "new quote",
   fun c => if c = "01d" then .ok "img" else .error "icon down"⟩

/-- Endpoints where the current-weather fetch raises. -/
def envCurrentFail : FetchEnv :=
  ⟨.error "city not found", .ok examplePoints, .ok "q", fun _ => .ok "img"⟩

theorem dailySummaries_length_le :
    ∀ (l : List FPoint) (seen : List DateT) (col : Nat), col < 5 →
      (dailySummaries l seen col).length ≤ 5 - col := by
  intro l
  induction l with
  | nil => intro seen col _; simp [dailySummaries]
  | cons p rest ih =>
    intro seen col hcol
    by_cases hg : p.hour = 12 ∧ ¬ p.date ∈ seen
    · by_cases h5 : col + 1 = 5
      · simp [dailySummaries, hg, h5]; omega
      · have := ih (p.date :: seen) (col + 1) (by omega)
        simp only [dailySummaries, if_pos hg, if_neg h5, List.length_cons]
        omega
    · simpa [dailySummaries, hg] using ih seen col hcol

theorem dailySummaries_dates_sublist :
    ∀ (l : List FPoint) (seen : List DateT) (col : Nat),
      List.Sublist ((dailySummaries l seen col).map (fun s => s.date))
        (l.map (fun p => p.date)) := by
  intro l
  induction l with
  | nil => intro seen col; simp [dailySummaries]
  | cons p rest ih =>
    intro seen col
    by_cases hg : p.hour = 12 ∧ ¬ p.date ∈ seen
    · by_cases h5 : col + 1 = 5
      · simp only [dailySummaries, if_pos hg, if_pos h5, List.map_cons, List.map, mkSum]
        exact (List.nil_sublist _).cons₂ p.date
      · simp only [dailySummaries, if_pos hg, if_neg h5, List.map_cons, List.map]
        exact List.Sublist.cons₂ p.date (ih (p.date :: seen) (col + 1))
    · simp only [dailySummaries, if_neg hg, List.map_cons]
      exact List.Sublist.cons p.date (ih seen col)

theorem dailySummaries_dates_fresh_nodup :
    ∀ (l : List FPoint) (seen : List DateT) (col : Nat),
      (∀ d ∈ (dailySummaries l seen col).map (fun s => s.date), ¬ d ∈ seen) ∧
        ((dailySummaries l seen col).map (fun s => s.date)).Nodup := by
  intro l
  induction l with
  | nil => intro seen col; simp [dailySummaries]
  | cons p rest ih =>
    intro seen col
    by_cases hg : p.hour = 12 ∧ ¬ p.date ∈ seen
    · by_cases h5 : col + 1 = 5
      · constructor
        · intro d hd
          simp [dailySummaries, hg, h5, mkSum] at hd
          rw [hd]
          exact hg.2
        · simp [dailySummaries, hg, h5]
      · have ihh := ih (p.date :: seen) (col + 1)
        constructor
        · intro d hd
          simp only [dailySummaries, if_pos hg, if_neg h5, List.map_cons, List.mem_cons,
            mkSum] at hd
          rcases hd with hd | hd
          · rw [hd]; exact hg.2
          · have := ihh.1 d hd
            intro hds
            exact this (List.mem_cons_of_mem _ hds)
        · simp only [dailySummaries, if_pos hg, if_neg h5, List.map_cons, List.nodup_cons]
          refine ⟨fun hmem => ?_, ihh.2⟩
          have := ihh.1 _ hmem
          simp [mkSum] at this
    · simpa [dailySummaries, hg] using ih seen col

theorem dailySummaries_eq_dedup_take :
    ∀ (l : List FPoint) (seen : List DateT) (col : Nat), col < 5 →
      dailySummaries l seen col =
        ((dedupFirst seen (l.filter (fun p => p.hour == 12))).take (5 - col)).map mkSum := by
  intro l
  induction l with
  | nil => intro seen col _; simp [dailySummaries, dedupFirst]
  | cons p rest ih =>
    intro seen col hcol
    by_cases h12 : p.hour = 12
    · by_cases hseen : p.date ∈ seen
      · have hg : ¬ (p.hour = 12 ∧ ¬ p.date ∈ seen) := by
          intro hg; exact hg.2 hseen
        simp only [dailySummaries, if_neg hg, List.filter_cons]
        simp only [h12, beq_self_eq_true, if_pos, dedupFirst, if_pos hseen]
        exact ih seen col hcol
      · have hg : p.hour = 12 ∧ ¬ p.date ∈ seen := ⟨h12, hseen⟩
        have hsplit : 5 - col = (5 - (col + 1)) + 1 := by omega
        simp only [dailySummaries, if_pos hg, List.filter_cons]
        simp only [h12, beq_self_eq_true, if_pos, dedupFirst, if_neg hseen]
        rw [hsplit, List.take_succ_cons, List.map_cons]
        by_cases h5 : col + 1 = 5
        · have : 5 - (col + 1) = 0 := by omega
          simp [h5, this]
        · simp only [if_neg h5]
          rw [ih (p.date :: seen) (col + 1) (by omega)]
    · have hg : ¬ (p.hour = 12 ∧ ¬ p.date ∈ seen) := by
        intro hg; exact h12 hg.1
      have hb : (p.hour == 12) = false := by
        simpa using h12
      simp only [dailySummaries, if_neg hg, List.filter_cons, hb, Bool.false_eq_true, if_neg,
        if_false]
      exact ih seen col hcol

/-- C1: for every ordered forecast sequence, the daily reduction emits at most
5 summaries, no two summaries for the same calendar date, and the summaries'
dates are in non-decreasing order matching the input order. -/
theorem daily_at_most_five_nodup_sorted (points : List FPoint)
    (hchron : points.Pairwise chronLe) :
    (dailySummaries points [] 0).length ≤ 5 ∧
      ((dailySummaries points [] 0).map (fun s => s.date)).Nodup ∧
      ((dailySummaries points [] 0).map (fun s => s.date)).Pairwise dateLe := by
  refine ⟨?_, (dailySummaries_dates_fresh_nodup points [] 0).2, ?_⟩
  · simpa using dailySummaries_length_le points [] 0 (by omega)
  · have hp : (points.map (fun p => p.date)).Pairwise dateLe := by
      rw [List.pairwise_map]
      exact hchron.imp chronLe_dateLe
    exact hp.sublist (dailySummaries_dates_sublist points [] 0)

/-- Witness for C1 on the spec's example feed. -/
theorem daily_at_most_five_nodup_sorted_witness :
    examplePoints.Pairwise chronLe ∧
      ((dailySummaries examplePoints [] 0).length ≤ 5 ∧
        ((dailySummaries examplePoints [] 0).map (fun s => s.date)).Nodup ∧
        ((dailySummaries examplePoints [] 0).map (fun s => s.date)).Pairwise dateLe) :=
  ⟨by decide, daily_at_most_five_nodup_sorted examplePoints (by decide)⟩

/-- C2: the daily reduction walks the points once in input order and emits a
summary exactly for each point at hour 12 whose calendar date is fresh, taking
that point's weekday label, icon code and min/max temperatures, stopping after
5 summaries (equivalently: midday filter, then first-per-date, then take 5);
on the spec's example feed it emits exactly Mon(14/20) and Tue(11/19). -/
theorem daily_policy_and_example :
    (∀ points : List FPoint, dailySummaries points [] 0 = specDaily points) ∧
      dailySummaries examplePoints [] 0 =
        [⟨exDate1, "Mon", "i2", 14, 20⟩, ⟨exDate2, "Tue", "i4", 11, 19⟩] := by
  constructor
  · intro points
    simpa [specDaily] using dailySummaries_eq_dedup_take points [] 0 (by omega)
  · decide

/-- C3: the hourly reduction returns exactly the first `min 4 n` raw points,
in input order, element by element, and never pads or errors on short input. -/
theorem hourly_first_four (points : List FPoint) :
    (hourlyPoints points).length = min 4 points.length ∧
      ∀ i (hi : i < (hourlyPoints points).length) (hp : i < points.length),
        (hourlyPoints points).get ⟨i, hi⟩ =
          (timeLabel (points.get ⟨i, hp⟩), (points.get ⟨i, hp⟩).temp) := by
  constructor
  · simp [hourlyPoints, List.length_take]
  · intro i hi hp
    simp [hourlyPoints, List.get_eq_getElem, List.getElem_take]

/-- Witness for C3 on the spec's example feed (first chart point). -/
theorem hourly_first_four_witness :
    (hourlyPoints examplePoints).length = min 4 examplePoints.length ∧
      (hourlyPoints examplePoints).get ⟨0, by decide⟩ =
        (timeLabel (examplePoints.get ⟨0, by decide⟩),
          (examplePoints.get ⟨0, by decide⟩).temp) :=
  ⟨(hourly_first_four examplePoints).1,
    (hourly_first_four examplePoints).2 0 (by decide) (by decide)⟩

/-- C4: on an empty forecast sequence the reducer yields an empty daily list
and an empty hourly list, and the rendered daily loop terminates normally
(no exception) no matter how icon fetches would behave. -/
theorem empty_forecast_reduces_empty :
    forecastReduce [] = ([], []) ∧
      ∀ (iconFetch : String → Except String Img) (seen : List DateT) (col : Nat)
        (cards : List DailyCard) (calls : List Request),
        dailyRender iconFetch [] seen col cards calls = ⟨cards, calls, none⟩ :=
  ⟨rfl, fun _ _ _ _ _ => rfl⟩

/-- C5 counterexample: with current conditions, forecast and icons all
succeeding but the quote fetch failing, the concrete cycle shows the error
dialog and leaves the forecast cards, chart and quote display untouched —
the quote failure aborts the cycle instead of yielding a placeholder quote. -/
theorem quote_failure_counterexample :
    (update_data "Poipet" "Celsius" envQuoteFail st0).disp.errorShown = some "quote down" ∧
      (update_data "Poipet" "Celsius" envQuoteFail st0).disp.forecastCards = [oldCard] ∧
      (update_data "Poipet" "Celsius" envQuoteFail st0).disp.chart = some [("09:00", 7)] ∧
      (update_data "Poipet" "Celsius" envQuoteFail st0).disp.quoteShown = some "old quote" := by
  decide

/-- C5 amended: when the current-conditions and forecast fetches (and the
current icon fetch) succeed but the quote fetch fails, the cycle aborts: the
error dialog is shown, the forecast cards, chart and quote display keep their
previous contents, and the next tick is still armed. -/
theorem quote_failure_aborts_cycle (cityRaw unitChoice : String) (env : FetchEnv)
    (st : Display) (wx : CurrentWx) (points : List FPoint) (img : Img) (e : String)
    (hcity : ¬ pyStrip cityRaw = "")
    (hc : env.current = .ok wx) (hf : env.forecast = .ok points)
    (hi : env.icon wx.icon = .ok img) (hq : env.quote = .error e) :
    (update_data cityRaw unitChoice env st).disp.errorShown = some e ∧
      (update_data cityRaw unitChoice env st).disp.forecastCards = st.forecastCards ∧
      (update_data cityRaw unitChoice env st).disp.chart = st.chart ∧
      (update_data cityRaw unitChoice env st).disp.quoteShown = st.quoteShown ∧
      (update_data cityRaw unitChoice env st).rearmed = true := by
  unfold update_data
  simp [hcity, hc, hf, hi, hq]

/-- Witness for the amended C5 at a concrete cycle. -/
theorem quote_failure_aborts_cycle_witness :
    (update_data "Poipet" "Celsius" envQuoteFail st0).disp.errorShown = some "quote down" ∧
      (update_data "Poipet" "Celsius" envQuoteFail st0).disp.forecastCards = st0.forecastCards ∧
      (update_data "Poipet" "Celsius" envQuoteFail st0).disp.chart = st0.chart ∧
      (update_data "Poipet" "Celsius" envQuoteFail st0).disp.quoteShown = st0.quoteShown ∧
      (update_data "Poipet" "Celsius" envQuoteFail st0).rearmed = true :=
  quote_failure_aborts_cycle "Poipet" "Celsius" envQuoteFail st0 wx0 examplePoints
    "img" "quote down" (by decide) rfl rfl rfl rfl

/-- C6 counterexample: with only the daily-summary icon fetches failing (the
current icon succeeds), the concrete cycle shows the error dialog, leaves the
forecast frame cleared but empty (the previous card destroyed, no placeholder
card), and never reaches the chart — an individual icon failure aborts the
cycle instead of substituting a placeholder for that slot. -/
theorem icon_failure_counterexample :
    (update_data "Poipet" "Celsius" envDailyIconFail st0).disp.errorShown = some "icon down" ∧
      (update_data "Poipet" "Celsius" envDailyIconFail st0).disp.forecastCards = [] ∧
      (update_data "Poipet" "Celsius" envDailyIconFail st0).disp.chart = some [("09:00", 7)] ∧
      (update_data "Poipet" "Celsius" envDailyIconFail st0).disp.quoteShown = some "new quote" := by
  decide

/-- C6 amended: a failing current-conditions icon fetch is not replaced by a
placeholder: it raises and aborts the remainder of the cycle (icon, quote,
forecast cards and chart all keep their previous contents), the error dialog
is shown, and the next tick is still armed.  A failing daily icon fetch
aborts through the same exception path (see the counterexample). -/
theorem icon_failure_aborts_cycle (cityRaw unitChoice : String) (env : FetchEnv)
    (st : Display) (wx : CurrentWx) (points : List FPoint) (e : String)
    (hcity : ¬ pyStrip cityRaw = "")
    (hc : env.current = .ok wx) (hf : env.forecast = .ok points)
    (hi : env.icon wx.icon = .error e) :
    (update_data cityRaw unitChoice env st).disp.errorShown = some e ∧
      (update_data cityRaw unitChoice env st).disp.currentIcon = st.currentIcon ∧
      (update_data cityRaw unitChoice env st).disp.quoteShown = st.quoteShown ∧
      (update_data cityRaw unitChoice env st).disp.forecastCards = st.forecastCards ∧
      (update_data cityRaw unitChoice env st).disp.chart = st.chart ∧
      (update_data cityRaw unitChoice env st).rearmed = true := by
  unfold update_data
  simp [hcity, hc, hf, hi]

/-- Witness for the amended C6 at a concrete cycle. -/
theorem icon_failure_aborts_cycle_witness :
    (update_data "Poipet" "Celsius" envIconFail st0).disp.errorShown = some "icon down" ∧
      (update_data "Poipet" "Celsius" envIconFail st0).disp.currentIcon = st0.currentIcon ∧
      (update_data "Poipet" "Celsius" envIconFail st0).disp.quoteShown = st0.quoteShown ∧
      (update_data "Poipet" "Celsius" envIconFail st0).disp.forecastCards = st0.forecastCards ∧
      (update_data "Poipet" "Celsius" envIconFail st0).disp.chart = st0.chart ∧
      (update_data "Poipet" "Celsius" envIconFail st0).rearmed = true :=
  icon_failure_aborts_cycle "Poipet" "Celsius" envIconFail st0 wx0 examplePoints
    "icon down" (by decide) rfl rfl rfl

/-- C7 counterexample: a whitespace-only city entry pops the input warning and
issues zero network calls, but the cycle returns before `root.after`, so —
contrary to the claim — the 60-second timer is NOT re-armed by this cycle. -/
theorem empty_city_counterexample :
    (update_data "   " "Celsius" envQuoteFail st0).disp.warnShown =
        some "Please enter a city name." ∧
      (update_data "   " "Celsius" envQuoteFail st0).calls = [] ∧
      (update_data "   " "Celsius" envQuoteFail st0).rearmed = false := by
  decide

/-- C7 amended: a cycle whose requested location is empty after trimming
surfaces the input warning, issues zero network calls, changes no other
widget, and does not re-arm the timer (the early `return` skips
`root.after`). -/
theorem empty_city_no_calls_no_rearm (cityRaw unitChoice : String) (env : FetchEnv)
    (st : Display) (hcity : pyStrip cityRaw = "") :
    (update_data cityRaw unitChoice env st).disp.warnShown =
        some "Please enter a city name." ∧
      (update_data cityRaw unitChoice env st).calls = [] ∧
      (update_data cityRaw unitChoice env st).disp.errorShown = st.errorShown ∧
      (update_data cityRaw unitChoice env st).disp.chart = st.chart ∧
      (update_data cityRaw unitChoice env st).disp.forecastCards = st.forecastCards ∧
      (update_data cityRaw unitChoice env st).rearmed = false := by
  unfold update_data
  simp [hcity]

/-- Witness for the amended C7 at a concrete cycle. -/
theorem empty_city_no_calls_no_rearm_witness :
    (update_data "   " "Fahrenheit" envCurrentFail st0).disp.warnShown =
        some "Please enter a city name." ∧
      (update_data "   " "Fahrenheit" envCurrentFail st0).calls = [] ∧
      (update_data "   " "Fahrenheit" envCurrentFail st0).disp.errorShown = st0.errorShown ∧
      (update_data "   " "Fahrenheit" envCurrentFail st0).disp.chart = st0.chart ∧
      (update_data "   " "Fahrenheit" envCurrentFail st0).disp.forecastCards =
        st0.forecastCards ∧
      (update_data "   " "Fahrenheit" envCurrentFail st0).rearmed = false :=
  empty_city_no_calls_no_rearm "   " "Fahrenheit" envCurrentFail st0 (by decide)

/-- C8 counterexample: the empty-location cycle is a failing cycle (it reports
the input failure), yet it does not schedule the next cycle — so "after any
failing cycle the next cycle is always scheduled" is false on the code. -/
theorem failing_cycle_not_rescheduled_counterexample :
    (update_data "" "Celsius" envCurrentFail st0).disp.warnShown =
        some "Please enter a city name." ∧
      (update_data "" "Celsius" envCurrentFail st0).rearmed = false := by
  decide

/-- C8 amended: when the current-conditions fetch fails, the reducer is never
invoked (the single issued request is the current-weather one, and the
forecast cards and chart keep their previous contents), the error dialog is
shown, and the next tick is armed; moreover every cycle that passes input
validation re-arms the timer, whatever fails afterwards.  Only the
empty-input cycle skips the rescheduling (see the counterexample). -/
theorem current_failure_no_reducer_rearm (cityRaw unitChoice : String) (env : FetchEnv)
    (st : Display) (hcity : ¬ pyStrip cityRaw = "") :
    (∀ e, env.current = .error e →
        (update_data cityRaw unitChoice env st).disp.errorShown = some e ∧
          (update_data cityRaw unitChoice env st).calls =
            [Request.currentWx (pyStrip cityRaw)
              (if unitChoice = "Celsius" then "metric" else "imperial")] ∧
          (update_data cityRaw unitChoice env st).disp.forecastCards = st.forecastCards ∧
          (update_data cityRaw unitChoice env st).disp.chart = st.chart) ∧
      (update_data cityRaw unitChoice env st).rearmed = true := by
  constructor
  · intro e hc
    unfold update_data
    simp [hcity, hc]
  · unfold update_data
    cases hc : env.current with
    | error e => simp [hcity, hc]
    | ok wx =>
      cases hf : env.forecast with
      | error e => simp [hcity, hc, hf]
      | ok points =>
        cases hi : env.icon wx.icon with
        | error e => simp [hcity, hc, hf, hi]
        | ok img =>
          cases hq : env.quote with
          | error e => simp [hcity, hc, hf, hi, hq]
          | ok q =>
            cases hd : (dailyRender env.icon points [] 0 [] []).err with
            | some e => simp [hcity, hc, hf, hi, hq, hd]
            | none => simp [hcity, hc, hf, hi, hq, hd]

/-- Witness for the amended C8 at a concrete cycle. -/
theorem current_failure_no_reducer_rearm_witness :
    ((update_data "Poipet" "Celsius" envCurrentFail st0).disp.errorShown =
          some "city not found" ∧
        (update_data "Poipet" "Celsius" envCurrentFail st0).calls =
          [Request.currentWx (pyStrip "Poipet")
            (if "Celsius" = "Celsius" then "metric" else "imperial")] ∧
        (update_data "Poipet" "Celsius" envCurrentFail st0).disp.forecastCards =
          st0.forecastCards ∧
        (update_data "Poipet" "Celsius" envCurrentFail st0).disp.chart = st0.chart) ∧
      (update_data "Poipet" "Celsius" envCurrentFail st0).rearmed = true :=
  ⟨(current_failure_no_reducer_rearm "Poipet" "Celsius" envCurrentFail st0
      (by decide)).1 "city not found" rfl,
    (current_failure_no_reducer_rearm "Poipet" "Celsius" envCurrentFail st0
      (by decide)).2⟩

/-- The displayed data of a card, image stripped: day label, min, max. -/
def cardData (c : DailyCard) : String × Int × Int :=
  (c.dayLabel, c.temp_min, c.temp_max)

/-- The displayed data of a summary, icon code stripped: day label, min, max. -/
def sumData (s : DSum) : String × Int × Int :=
  (s.dayLabel, s.temp_min, s.temp_max)

theorem dailyRender_ok_cards :
    ∀ (l : List FPoint) (o : String → Except String Img) (seen : List DateT)
      (col : Nat) (cards : List DailyCard) (calls : List Request),
      (dailyRender o l seen col cards calls).err = none →
      (dailyRender o l seen col cards calls).cards.map cardData =
        cards.map cardData ++ (dailySummaries l seen col).map sumData := by
  intro l
  induction l with
  | nil => intro o seen col cards calls _; simp [dailyRender, dailySummaries]
  | cons p rest ih =>
    intro o seen col cards calls herr
    by_cases hg : p.hour = 12 ∧ ¬ p.date ∈ seen
    · cases ho : o p.icon with
      | error e =>
        rw [dailyRender, if_pos hg, ho] at herr
        simp at herr
      | ok img =>
        by_cases h5 : col + 1 = 5
        · simp [dailyRender, dailySummaries, hg, ho, h5, cardData, sumData, mkCard, mkSum]
        · rw [dailyRender, if_pos hg, ho] at herr ⊢
          simp only [if_neg h5] at herr ⊢
          rw [ih o (p.date :: seen) (col + 1) _ _ herr]
          simp [dailySummaries, hg, h5, cardData, sumData, mkCard, mkSum]
    · rw [dailyRender, if_neg hg] at herr ⊢
      rw [ih o seen col cards calls herr]
      simp [dailySummaries, hg]

/-- C9 counterexample: on the spec's example feed the daily reduction loop, as
implemented, issues one icon-image network request per emitted summary — it
does not perform "no I/O". -/
theorem reduction_issues_io_counterexample :
    (dailyRender (fun _ => Except.ok "img") examplePoints [] 0 [] []).calls =
        [Request.iconReq "i2", Request.iconReq "i4"] ∧
      ¬ (dailyRender (fun _ => Except.ok "img") examplePoints [] 0 [] []).calls = [] := by
  decide

/-- C9 amended: the reduction's selection and displayed data (day label,
min/max temperatures, and the hourly points) are deterministic functions of
the raw samples, independent of the icon responses: any two icon oracles
under which the loop completes produce identical stripped cards, equal to the
pure reduction — but the loop does issue one icon request per summary, so it
is not I/O-free. -/
theorem reduction_deterministic_modulo_icons
    (o1 o2 : String → Except String Img) (points : List FPoint)
    (h1 : (dailyRender o1 points [] 0 [] []).err = none)
    (h2 : (dailyRender o2 points [] 0 [] []).err = none) :
    (dailyRender o1 points [] 0 [] []).cards.map cardData =
        (dailyRender o2 points [] 0 [] []).cards.map cardData ∧
      (dailyRender o1 points [] 0 [] []).cards.map cardData =
        ((forecastReduce points).1).map sumData := by
  have e1 := dailyRender_ok_cards points o1 [] 0 [] [] h1
  have e2 := dailyRender_ok_cards points o2 [] 0 [] [] h2
  simp only [List.map_nil, List.nil_append] at e1 e2
  exact ⟨e1.trans e2.symm, e1⟩

/-- Witness for the amended C9: two different icon oracles on the example feed. -/
theorem reduction_deterministic_modulo_icons_witness :
    (dailyRender (fun _ => Except.ok "a") examplePoints [] 0 [] []).cards.map cardData =
        (dailyRender (fun _ => Except.ok "b") examplePoints [] 0 [] []).cards.map cardData ∧
      (dailyRender (fun _ => Except.ok "a") examplePoints [] 0 [] []).cards.map cardData =
        ((forecastReduce examplePoints).1).map sumData :=
  reduction_deterministic_modulo_icons (fun _ => Except.ok "a") (fun _ => Except.ok "b")
    examplePoints rfl rfl

/-- C10: the cycle's rendering is not atomic on error: when the quote fetch
fails after the current-conditions widgets have been updated, the
current-conditions labels and icon keep the new cycle's values while the
forecast cards and the hourly chart keep the previous cycle's contents — no
rollback of the partially applied update happens. -/
theorem partial_update_no_rollback (cityRaw unitChoice : String) (env : FetchEnv)
    (st : Display) (wx : CurrentWx) (points : List FPoint) (img : Img) (e : String)
    (hcity : ¬ pyStrip cityRaw = "")
    (hc : env.current = .ok wx) (hf : env.forecast = .ok points)
    (hi : env.icon wx.icon = .ok img) (hq : env.quote = .error e) :
    (update_data cityRaw unitChoice env st).disp.weatherShown =
        some (pyStrip cityRaw, wx.description, wx.temp, wx.feels_like) ∧
      (update_data cityRaw unitChoice env st).disp.detailsShown =
        some (wx.wind, wx.humidity, wx.sunrise, wx.sunset) ∧
      (update_data cityRaw unitChoice env st).disp.currentIcon = some img ∧
      (update_data cityRaw unitChoice env st).disp.forecastCards = st.forecastCards ∧
      (update_data cityRaw unitChoice env st).disp.chart = st.chart ∧
      (update_data cityRaw unitChoice env st).disp.errorShown = some e := by
  unfold update_data
  simp [hcity, hc, hf, hi, hq]

/-- Witness for C10 at a concrete cycle. -/
theorem partial_update_no_rollback_witness :
    (update_data "Poipet" "Celsius" envQuoteFail st0).disp.weatherShown =
        some (pyStrip "Poipet", wx0.description, wx0.temp, wx0.feels_like) ∧
      (update_data "Poipet" "Celsius" envQuoteFail st0).disp.detailsShown =
        some (wx0.wind, wx0.humidity, wx0.sunrise, wx0.sunset) ∧
      (update_data "Poipet" "Celsius" envQuoteFail st0).disp.currentIcon = some "img" ∧
      (update_data "Poipet" "Celsius" envQuoteFail st0).disp.forecastCards =
        st0.forecastCards ∧
      (update_data "Poipet" "Celsius" envQuoteFail st0).disp.chart = st0.chart ∧
      (update_data "Poipet" "Celsius" envQuoteFail st0).disp.errorShown = some "quote down" :=
  partial_update_no_rollback "Poipet" "Celsius" envQuoteFail st0 wx0 examplePoints
    "img" "quote down" (by decide) rfl rfl rfl rfl
